import Mathlib

/-!
Shallow embedding of `webdriver/webapp_server.go`: the instance supervisor
for the dev app server used by the integration-test harness. The stateful,
concurrent parts (the stderr-scanning goroutine of `AwaitReady`, the
`select` joins against timers in `AwaitReady` and `Close`) are embedded by
making the nondeterministic inputs explicit: the list of stderr lines the
scanner sees, the stream error at closure, whether the startup deadline
fired before the scanner's channel send, whether the child exited within
the shutdown grace period, and the results of `cmd.Start`, `cmd.Wait` and
the `/quit` HTTP request.
-/

namespace WebappServer

/-- Strings are modelled as lists of characters. -/
abbrev Str := List Char

/-- Whitespace class of Go regexp `\s`, namely `[\t\n\f\r ]`. -/
def isGoSpace (c : Char) : Bool :=
  c = ' ' || c = '\t' || c = '\n' || c = '\x0c' || c = '\r'

/-- Leftmost match of the Go regexp `<marker>(\S+)` against a line: the first
position at which the literal marker occurs immediately followed by at least
one non-whitespace character; the capture is the maximal run of
non-whitespace characters after the marker. This models
`regexp.FindStringSubmatch` for `hostRE` and `adminURLRE`
(webapp_server.go lines 177-178). -/
def findCapture (marker : Str) : Str → Option Str
  | [] => none
  | c :: rest =>
    if marker.isPrefixOf (c :: rest) then
      let tok := ((c :: rest).drop marker.length).takeWhile (fun x => !isGoSpace x)
      if tok.isEmpty then findCapture marker rest else some tok
    else findCapture marker rest

/-- Whether `pat` occurs as a contiguous substring of the line; models
matching of the capture-free regexp `readyRE` (webapp_server.go line 179). -/
def containsSub (pat : Str) : Str → Bool
  | [] => pat.isEmpty
  | c :: rest => pat.isPrefixOf (c :: rest) || containsSub pat rest

/-- Literal part of `hostRE` (line 177). -/
def hostMarker : Str := "Starting module \"default\" running at: ".data

/-- Literal part of `adminURLRE` (line 178). -/
def adminMarker : Str := "Starting admin server at: ".data

/-- The `readyRE` literal (line 179). -/
def readyMarker : Str := "GET /_ah/warmup".data

/-- Model of Go `net/url.URL` restricted to the absolute
`scheme://rest` shape that the harness captures from diagnostic lines;
`rest` is everything after the `://` separator. -/
structure URL where
  scheme : Str
  rest : Str
deriving DecidableEq

/-- Models `url.URL.String()` for URLs produced by `urlParse` below, which
stores the input unchanged as scheme and remainder, so printing is their
recombination. -/
def URL.toString (u : URL) : Str := u.scheme ++ "://".data ++ u.rest

/-- First character of a URL scheme per `net/url`: an ASCII letter. -/
def isSchemeHeadChar (c : Char) : Bool := c.isAlpha

/-- Subsequent characters of a URL scheme per `net/url`. -/
def isSchemeChar (c : Char) : Bool :=
  c.isAlpha || c.isDigit || c = '+' || c = '-' || c = '.'

/-- ASCII control characters, rejected by `net/url.Parse`. -/
def isCtl (c : Char) : Bool := c.toNat < 32 || c.toNat == 127

/-- Splits a string at the first occurrence of `://`, returning the parts
before and after the separator. -/
def splitScheme : Str → Option (Str × Str)
  | [] => none
  | c :: rest =>
    if "://".data.isPrefixOf (c :: rest) then some ([], (c :: rest).drop 3)
    else
      match splitScheme rest with
      | some (sch, r) => some (c :: sch, r)
      | none => none

/-- A well-formed scheme: a letter followed by letters, digits, `+`, `-`, `.`. -/
def validScheme : Str → Bool
  | [] => false
  | c :: rest => isSchemeHeadChar c && rest.all isSchemeChar

/-- Model of the Go standard library `net/url.Parse` for the token class this
harness captures (maximal non-whitespace runs of the absolute form
`scheme://...`): parsing succeeds exactly when the token has a well-formed
scheme followed by `://` and carries no control or whitespace character, and
the parsed URL prints back as the input. -/
def urlParse (s : Str) : Except Str URL :=
  match splitScheme s with
  | none => Except.error ("missing scheme in ".data ++ s)
  | some (sch, r) =>
    if validScheme sch && s.all (fun c => !isCtl c && !isGoSpace c) then
      Except.ok ⟨sch, r⟩
    else Except.error ("invalid URL ".data ++ s)

/-- The two endpoint fields of `devAppServerInstance` written by the
scanning goroutine (`baseURL`, `adminURL`, lines 73-74). -/
structure ScanState where
  baseURL : Option URL
  adminURL : Option URL
deriving DecidableEq

/-- Outcome of the scanning goroutine: the final field values and the value
sent on the `errc` channel (`none` models a nil error). -/
structure ScanResult where
  final : ScanState
  err : Option Str
deriving DecidableEq

/-- Go error message produced by `fmt.Errorf("failed to parse URL %q: %v", ...)`
(lines 197 and 205). -/
def parseFailMsg (tok e : Str) : Str :=
  "failed to parse URL \"".data ++ tok ++ "\": ".data ++ e

/-- One endpoint rule applied to one line (the shape of lines 194-209 for a
single regexp): no match leaves the field unchanged; a match parses the
captured token and either records the parsed URL or aborts with the parse
error that is sent on `errc`. -/
def applyRule (marker : Str) (line : Str) (cur : Option URL) : Except Str (Option URL) :=
  match findCapture marker line with
  | none => Except.ok cur
  | some tok =>
    match urlParse tok with
    | Except.error e => Except.error (parseFailMsg tok e)
    | Except.ok u => Except.ok (some u)

/-- Effect of one scanned line inside the goroutine loop. -/
inductive LineStep where
  | ready : LineStep
  | fail (st : ScanState) (e : Str) : LineStep
  | cont (st : ScanState) : LineStep
deriving DecidableEq

/-- The loop body of the goroutine in `AwaitReady` (lines 190-210): the ready
pattern is tested first and breaks the loop; otherwise the host rule runs
(assigning `baseURL` before the admin rule is reached), then the admin rule;
a parse failure returns immediately with the fields written so far. -/
def scanLine (st : ScanState) (line : Str) : LineStep :=
  if containsSub readyMarker line then LineStep.ready
  else
    match applyRule hostMarker line st.baseURL with
    | Except.error e => LineStep.fail st e
    | Except.ok b =>
      match applyRule adminMarker line st.adminURL with
      | Except.error e => LineStep.fail ⟨b, st.adminURL⟩ e
      | Except.ok a => LineStep.cont ⟨b, a⟩

/-- The stderr-scanning goroutine of `AwaitReady` (lines 188-212): lines are
processed in order; the scan stops at the first line containing the ready
marker, sending a nil error; a parse failure stops it with that error; if
the lines run out (stream closed), it sends the bufio scanner's error
`streamErr` (`none` for clean EOF). -/
def scanStderr (st : ScanState) (streamErr : Option Str) : List Str → ScanResult
  | [] => ⟨st, streamErr⟩
  | line :: rest =>
    match scanLine st line with
    | LineStep.ready => ⟨st, none⟩
    | LineStep.fail st1 e => ⟨st1, some e⟩
    | LineStep.cont st1 => scanStderr st1 streamErr rest

/-- Message of `errors.New("timeout starting child process")` (line 219). -/
def timeoutStartMsg : Str := "timeout starting child process".data

/-- Message of `errors.New("unable to find webserver URL")` (line 226). -/
def discoveryMsg : Str := "unable to find webserver URL".data

/-- Prefix of the error wrapping a scan error (line 222). -/
def scanErrMsgHead : Str := "error reading web_server.sh process stderr: ".data

/-- The explicit nondeterministic inputs of one `AwaitReady` run: the result
of `cmd.Start`, the stderr lines available before stream closure, the bufio
scanner error at closure, and whether the 90-second startup deadline fired
before the goroutine's channel send was received. -/
structure AwaitInput where
  startErr : Option Str
  lines : List Str
  streamErr : Option Str
  timedOut : Bool

/-- Observable outcome of `AwaitReady`: the returned error, the endpoint
fields of the instance, and whether the child process was killed. -/
structure AwaitOutcome where
  err : Option Str
  state : ScanState
  killed : Bool
deriving DecidableEq

/-- The join after the `select` (lines 220-228) when the goroutine's channel
send won the race: a scan error is wrapped and returned; otherwise a missing
`baseURL` is the discovery failure; otherwise success. -/
def awaitJoin (r : ScanResult) : AwaitOutcome :=
  match r.err with
  | some e => ⟨some (scanErrMsgHead ++ e), r.final, false⟩
  | none =>
    match r.final.baseURL with
    | none => ⟨some discoveryMsg, r.final, false⟩
    | some _ => ⟨none, r.final, false⟩

/-- `AwaitReady` (lines 181-229). A `cmd.Start` failure is returned as-is.
When the deadline fires first, the process (non-nil after a successful
start) is killed and the timeout error returned; the endpoint fields are not
read on that path, so the model records them unwritten. Otherwise the
outcome is the join on the goroutine's result. -/
def AwaitReady (inp : AwaitInput) : AwaitOutcome :=
  match inp.startErr with
  | some e => ⟨some e, ⟨none, none⟩, false⟩
  | none =>
    if inp.timedOut then ⟨some timeoutStartMsg, ⟨none, none⟩, true⟩
    else awaitJoin (scanStderr ⟨none, none⟩ inp.streamErr inp.lines)

/-- Prefix of `fmt.Errorf("unable to call /quit handler: %v", err)` (line 95). -/
def quitFailMsgHead : Str := "unable to call /quit handler: ".data

/-- Message of `errors.New("timeout killing child process")` (line 102). -/
def closeTimeoutMsg : Str := "timeout killing child process".data

/-- The explicit nondeterministic inputs of one `Close` run: whether the
`http.Get` of `/quit` on the admin URL failed (and its error), whether the
child exited within the 15-second grace period, and the `cmd.Wait` result
observed when it did. -/
structure CloseInput where
  quitErr : Option Str
  exitedInGrace : Bool
  waitErr : Option Str

/-- Observable outcome of `Close`: the returned error and whether
`cmd.Process.Kill` was invoked. -/
structure CloseOutcome where
  err : Option Str
  killed : Bool
deriving DecidableEq

/-- `Close` of `devAppServerInstance` (lines 85-107): a `/quit` delivery
failure kills immediately and returns the wrapped error without consulting
the grace timer; otherwise the 15-second timer races `cmd.Wait`: on expiry
the process is killed and the timeout error returned, on natural exit the
`cmd.Wait` error is returned verbatim (`none` on clean exit). -/
def Close (inp : CloseInput) : CloseOutcome :=
  match inp.quitErr with
  | some e => ⟨some (quitFailMsgHead ++ e), true⟩
  | none =>
    if inp.exitedInGrace then ⟨inp.waitErr, false⟩
    else ⟨some closeTimeoutMsg, true⟩

/-- `remoteAppServer.GetWebappURL` (lines 42-45): `fmt.Sprintf("https://%s%s", host, path)`. -/
def remoteGetWebappURL (host path : Str) : Str :=
  "https://".data ++ host ++ path

/-- Decimal rendering of a port number, as `fmt.Sprintf` `%d`. -/
def natRepr (n : Nat) : Str := (Nat.repr n).data

/-- `devAppServerInstance.GetWebappURL` (lines 77-83): with a discovered
base URL, `fmt.Sprintf("%s%s", i.baseURL.String(), path)`; otherwise
`fmt.Sprintf("http://%s:%d%s", i.host, i.port, path)`. -/
def devGetWebappURL (baseURL : Option URL) (host : Str) (port : Nat) (path : Str) : Str :=
  match baseURL with
  | some u => u.toString ++ path
  | none => "http://".data ++ host ++ ":".data ++ natRepr port ++ path

/-- Outcome of `NewWebserver`: the remote handle, a local handle, an error
returned to the caller, or a panic. -/
inductive WebserverOutcome where
  | remote (host : Str)
  | ok
  | err (e : Str)
  | panicked (e : Str)
deriving DecidableEq

/-- The explicit inputs of one `NewWebserver` run: the `staging` flag and
remote host, and the failures (if any) of `newDevAppServer`, of
`app.AwaitReady()`, and of `addStaticData`. -/
structure WebserverInput where
  stagingFlag : Bool
  host : Str
  devErr : Option Str
  awaitErr : Option Str
  seedErr : Option Str

/-- `NewWebserver` (lines 111-130): with `staging` set it returns the remote
handle; a `newDevAppServer` failure is returned as an error value; an
`AwaitReady` failure and an `addStaticData` failure each hit `panic(err)`
rather than an error return. -/
def NewWebserver (inp : WebserverInput) : WebserverOutcome :=
  if inp.stagingFlag then WebserverOutcome.remote inp.host
  else
    match inp.devErr with
    | some e => WebserverOutcome.err e
    | none =>
      match inp.awaitErr with
      | some e => WebserverOutcome.panicked e
      | none =>
        match inp.seedErr with
        | some e => WebserverOutcome.panicked e
        | none => WebserverOutcome.ok

/-! Concrete diagnostic lines used in the scenario claims. -/

/-- The admin line exactly as written in the scenario claim. -/
def adminLineShort : Str := "admin server at: http://localhost:9999".data

/-- The module line exactly as written in the scenario claim. -/
def hostLineShort : Str := "module running at: http://localhost:8080".data

/-- A ready-marker line. -/
def readyLine : Str := "GET /_ah/warmup".data

/-- An admin line carrying the full marker that `adminURLRE` requires. -/
def adminLineFull : Str := "Starting admin server at: http://localhost:9999".data

/-- A module line carrying the full marker that `hostRE` requires. -/
def hostLineFull : Str := "Starting module \"default\" running at: http://localhost:8080".data

/-- A single line containing both the ready marker and the host marker. -/
def bothMarkersLine : Str :=
  "Starting module \"default\" running at: http://localhost:8080 GET /_ah/warmup".data

end WebappServer

namespace WebappServer

/-- A URL model always prints to a nonempty string: its rendering contains
the `://` separator. -/
lemma URL.toString_ne_nil (u : URL) : u.toString ≠ [] := by
  intro h
  have hl := congrArg List.length h
  simp [URL.toString] at hl

/-- If applying one endpoint rule produced a field value, either the line did
not match and the field is unchanged, or the line's captured token parsed to
the recorded URL. -/
lemma applyRule_ok (marker line : Str) (cur b : Option URL)
    (h : applyRule marker line cur = Except.ok b) :
    b = cur ∨ ∃ tok u, findCapture marker line = some tok ∧
      urlParse tok = Except.ok u ∧ b = some u := by
  unfold applyRule at h
  split at h
  · exact Or.inl (Except.ok.inj h).symm
  · rename_i tok hf
    split at h
    · exact Except.noConfusion h
    · rename_i u hp
      exact Or.inr ⟨tok, u, hf, hp, (Except.ok.inj h).symm⟩

/-- A line containing the ready marker makes the loop body break at once. -/
lemma scanLine_ready (st : ScanState) (l : Str) (h : containsSub readyMarker l = true) :
    scanLine st l = LineStep.ready := by
  simp [scanLine, h]

/-- If the loop body continued with a state, its `baseURL` either is the
previous one or was parsed from the line's host capture. -/
lemma scanLine_cont (st st1 : ScanState) (l : Str) (h : scanLine st l = LineStep.cont st1) :
    st1.baseURL = st.baseURL ∨ ∃ tok u, findCapture hostMarker l = some tok ∧
      urlParse tok = Except.ok u ∧ st1.baseURL = some u := by
  unfold scanLine at h
  by_cases hr : containsSub readyMarker l
  · simp [hr] at h
  · simp only [hr, if_false, Bool.false_eq_true, if_neg] at h
    cases hh : applyRule hostMarker l st.baseURL with
    | error e => rw [hh] at h; simp at h
    | ok b =>
      rw [hh] at h
      cases ha : applyRule adminMarker l st.adminURL with
      | error e => rw [ha] at h; simp at h
      | ok a =>
        rw [ha] at h
        simp at h
        have hb : st1.baseURL = b := by rw [← h]
        rcases applyRule_ok hostMarker l st.baseURL b hh with h1 | ⟨tok, u, hf, hp, h2⟩
        · exact Or.inl (hb.trans h1)
        · exact Or.inr ⟨tok, u, hf, hp, hb.trans h2⟩

/-- If the loop body aborted with a parse error, the reported state's
`baseURL` either is the previous one or was parsed from the line's host
capture. -/
lemma scanLine_fail (st st1 : ScanState) (l e : Str) (h : scanLine st l = LineStep.fail st1 e) :
    st1.baseURL = st.baseURL ∨ ∃ tok u, findCapture hostMarker l = some tok ∧
      urlParse tok = Except.ok u ∧ st1.baseURL = some u := by
  unfold scanLine at h
  by_cases hr : containsSub readyMarker l
  · simp [hr] at h
  · simp only [hr, if_false, Bool.false_eq_true, if_neg] at h
    cases hh : applyRule hostMarker l st.baseURL with
    | error e2 =>
      rw [hh] at h
      simp at h
      exact Or.inl (by rw [← h.1])
    | ok b =>
      rw [hh] at h
      cases ha : applyRule adminMarker l st.adminURL with
      | error e2 =>
        rw [ha] at h
        simp at h
        have hb : st1.baseURL = b := by rw [← h.1]
        rcases applyRule_ok hostMarker l st.baseURL b hh with h1 | ⟨tok, u, hf, hp, h2⟩
        · exact Or.inl (hb.trans h1)
        · exact Or.inr ⟨tok, u, hf, hp, hb.trans h2⟩
      | ok a => rw [ha] at h; simp at h

/-- Provenance of the `baseURL` field: if the scan finished with a recorded
primary URL, it was already recorded at entry or was parsed from the host
capture of one of the scanned lines. -/
lemma scanStderr_base (lines : List Str) :
    ∀ (st : ScanState) (e : Option Str) (u : URL),
      (scanStderr st e lines).final.baseURL = some u →
      st.baseURL = some u ∨ ∃ l ∈ lines, ∃ tok, findCapture hostMarker l = some tok ∧
        urlParse tok = Except.ok u := by
  induction lines with
  | nil =>
    intro st e u h
    exact Or.inl h
  | cons line rest ih =>
    intro st e u h
    rw [scanStderr] at h
    cases hs : scanLine st line with
    | ready =>
      rw [hs] at h
      exact Or.inl h
    | fail st1 e1 =>
      rw [hs] at h
      rcases scanLine_fail st st1 line e1 hs with h1 | ⟨tok, u2, hf, hp, hb⟩
      · exact Or.inl (h1 ▸ h)
      · have : u2 = u := by
          have := hb ▸ h
          exact Option.some.inj this
        exact Or.inr ⟨line, List.mem_cons_self line rest, tok, hf, this ▸ hp⟩
    | cont st1 =>
      rw [hs] at h
      rcases ih st1 e u h with h1 | ⟨l, hl, tok, hf, hp⟩
      · rcases scanLine_cont st st1 line hs with h2 | ⟨tok, u2, hf, hp, hb⟩
        · exact Or.inl (h2 ▸ h1)
        · have : u2 = u := Option.some.inj ((hb.symm.trans h1))
          exact Or.inr ⟨line, List.mem_cons_self line rest, tok, hf, this ▸ hp⟩
      · exact Or.inr ⟨l, List.mem_cons_of_mem line hl, tok, hf, hp⟩

/-- Lines at and after the first ready-marker line never affect the scan:
the scan of any stream whose remaining part begins at a ready line is
independent of everything after that line and of the stream error. -/
lemma scanStderr_ignores_after_ready (l : Str) (h : containsSub readyMarker l = true)
    (pre : List Str) :
    ∀ (st : ScanState) (rest rest' : List Str) (e e' : Option Str),
      scanStderr st e (pre ++ l :: rest) = scanStderr st e' (pre ++ l :: rest') := by
  induction pre with
  | nil =>
    intro st rest rest' e e'
    simp [scanStderr, scanLine_ready st l h]
  | cons line pre ih =>
    intro st rest rest' e e'
    simp only [List.cons_append]
    rw [scanStderr, scanStderr]
    cases hs : scanLine st line with
    | ready => rfl
    | fail st1 e1 => rfl
    | cont st1 => exact ih st1 rest rest' e e'

/-- C1 amended: `AwaitReady` returns no error only if a primary-endpoint URL
was captured from the diagnostic stream and parsed as a well-formed,
non-empty URL; capture of the admin-endpoint URL and observation of the
ready signal are not required. -/
theorem AwaitReady_ok_requires_baseURL (lines : List Str) (streamErr : Option Str)
    (h : (AwaitReady ⟨none, lines, streamErr, false⟩).err = none) :
    ∃ u, (AwaitReady ⟨none, lines, streamErr, false⟩).state.baseURL = some u ∧
      u.toString ≠ [] ∧
      ∃ l ∈ lines, ∃ tok, findCapture hostMarker l = some tok ∧
        urlParse tok = Except.ok u := by
  have hA : AwaitReady ⟨none, lines, streamErr, false⟩ =
      awaitJoin (scanStderr ⟨none, none⟩ streamErr lines) := rfl
  rw [hA] at h ⊢
  unfold awaitJoin at h ⊢
  cases he : (scanStderr ⟨none, none⟩ streamErr lines).err with
  | some e =>
    rw [he] at h
    simp at h
  | none =>
    rw [he] at h
    cases hb : (scanStderr ⟨none, none⟩ streamErr lines).final.baseURL with
    | none =>
      rw [hb] at h
      simp at h
    | some u =>
      refine ⟨u, hb, URL.toString_ne_nil u, ?_⟩
      rcases scanStderr_base lines ⟨none, none⟩ streamErr u hb with h1 | h2
      · exact Option.noConfusion h1
      · exact h2

/-- C1 witness: the amended success condition instantiated on the
single-module-line stream. -/
theorem AwaitReady_ok_requires_baseURL_witness :
    (AwaitReady ⟨none, [hostLineFull], none, false⟩).err = none ∧
    ∃ u, (AwaitReady ⟨none, [hostLineFull], none, false⟩).state.baseURL = some u ∧
      u.toString ≠ [] ∧
      ∃ l ∈ [hostLineFull], ∃ tok, findCapture hostMarker l = some tok ∧
        urlParse tok = Except.ok u :=
  ⟨by decide, AwaitReady_ok_requires_baseURL [hostLineFull] none (by decide)⟩

/-- C2 amended: on a stream whose ready-signal line never appears and that
closes cleanly before the deadline, `AwaitReady` returns the
discovery-failure error exactly when the primary-endpoint capture is
missing; when the primary endpoint was captured it returns nil even though
the ready signal was never observed. -/
theorem AwaitReady_closed_stream_discovery_iff_no_base (lines : List Str)
    (_hready : lines.all (fun l => !containsSub readyMarker l) = true)
    (hscan : (scanStderr ⟨none, none⟩ none lines).err = none) :
    ((AwaitReady ⟨none, lines, none, false⟩).err = some discoveryMsg ↔
      (scanStderr ⟨none, none⟩ none lines).final.baseURL = none) ∧
    ((scanStderr ⟨none, none⟩ none lines).final.baseURL ≠ none →
      (AwaitReady ⟨none, lines, none, false⟩).err = none) := by
  have hA : AwaitReady ⟨none, lines, none, false⟩ =
      awaitJoin (scanStderr ⟨none, none⟩ none lines) := rfl
  rw [hA]
  unfold awaitJoin
  rw [hscan]
  cases hb : (scanStderr ⟨none, none⟩ none lines).final.baseURL with
  | none => simp
  | some u => simp

/-- C2 witness: the amended condition instantiated on the admin-only stream,
where the missing primary capture yields exactly the discovery error. -/
theorem AwaitReady_closed_stream_discovery_iff_no_base_witness :
    [adminLineFull].all (fun l => !containsSub readyMarker l) = true ∧
    (((AwaitReady ⟨none, [adminLineFull], none, false⟩).err = some discoveryMsg ↔
      (scanStderr ⟨none, none⟩ none [adminLineFull]).final.baseURL = none) ∧
    ((scanStderr ⟨none, none⟩ none [adminLineFull]).final.baseURL ≠ none →
      (AwaitReady ⟨none, [adminLineFull], none, false⟩).err = none)) :=
  ⟨by decide,
    AwaitReady_closed_stream_discovery_iff_no_base [adminLineFull] (by decide) (by decide)⟩

/-- C9: the loop body tests the ready pattern before the endpoint patterns
and breaks on it, so a stream headed by any line containing the ready
marker — even one that also contains an endpoint marker — stops the scan
with the state unchanged and a nil channel value, and the scan result is
independent of every line after the first ready-marker line and of the
stream error. -/
theorem scan_ready_checked_first (st : ScanState) (l : Str) (pre rest rest' : List Str)
    (e e' : Option Str) (hl : containsSub readyMarker l = true) :
    scanStderr st e (l :: rest) = ⟨st, none⟩ ∧
    scanStderr st e (pre ++ l :: rest) = scanStderr st e' (pre ++ l :: rest') := by
  constructor
  · simp [scanStderr, scanLine_ready st l hl]
  · exact scanStderr_ignores_after_ready l hl pre st rest rest' e e'

/-- C9 witness: a line containing both the host marker (with a parsable URL
token) and the ready marker contributes no endpoint capture and ends the
scan, and the lines after it are ignored. -/
theorem scan_ready_checked_first_witness :
    containsSub readyMarker bothMarkersLine = true ∧
    (scanStderr ⟨none, none⟩ none (bothMarkersLine :: [hostLineFull]) =
      ⟨⟨none, none⟩, none⟩ ∧
    scanStderr ⟨none, none⟩ none ([adminLineFull] ++ bothMarkersLine :: [hostLineFull]) =
      scanStderr ⟨none, none⟩ (some "read error".data)
        ([adminLineFull] ++ bothMarkersLine :: [])) :=
  ⟨by decide,
    scan_ready_checked_first ⟨none, none⟩ bothMarkersLine [adminLineFull] [hostLineFull] []
      none (some "read error".data) (by decide)⟩

/-- C8 counterexample: when local construction succeeds but `AwaitReady`
fails, `NewWebserver` panics with that error instead of returning it as an
error value, contradicting the claim that every startup failure is returned
to the direct caller. -/
theorem NewWebserver_panics_on_await_failure :
    NewWebserver ⟨false, "staging.wpt.fyi".data, none, some "await failed".data, none⟩ =
      WebserverOutcome.panicked "await failed".data ∧
    WebserverOutcome.panicked "await failed".data ≠
      WebserverOutcome.err "await failed".data := by
  refine ⟨by decide, by decide⟩

/-- C8 amended: a spawn failure from `newDevAppServer` is returned to the
direct caller of `NewWebserver` as an error value, but a discovery or
timeout failure from `AwaitReady` and a data-seeding failure from
`addStaticData` each cause a panic rather than an error return; with no
failure the local handle is returned. -/
theorem NewWebserver_propagation (host : Str) (e : Str) (a s : Option Str) :
    NewWebserver ⟨false, host, some e, a, s⟩ = WebserverOutcome.err e ∧
    NewWebserver ⟨false, host, none, some e, s⟩ = WebserverOutcome.panicked e ∧
    NewWebserver ⟨false, host, none, none, some e⟩ = WebserverOutcome.panicked e ∧
    NewWebserver ⟨false, host, none, none, none⟩ = WebserverOutcome.ok := by
  exact ⟨rfl, rfl, rfl, rfl⟩

/-- C4: when the startup deadline elapses before the log scan completes,
`AwaitReady` kills the child process before returning and returns the
timeout error, which is distinct from the discovery-failure error. -/
theorem AwaitReady_timeout_kills_with_distinct_error (lines : List Str) (streamErr : Option Str) :
    (AwaitReady ⟨none, lines, streamErr, true⟩).err = some timeoutStartMsg ∧
    (AwaitReady ⟨none, lines, streamErr, true⟩).killed = true ∧
    timeoutStartMsg ≠ discoveryMsg := by
  refine ⟨rfl, rfl, ?_⟩
  decide

/-- C5: a `/quit` delivery failure makes `Close` kill the child immediately
and return the wrapped delivery error; the outcome does not depend on the
grace-period race or the `cmd.Wait` result, i.e. no waiting occurs. -/
theorem Close_delivery_failure_kills_immediately (e : Str) (exited : Bool) (waitErr : Option Str) :
    Close ⟨some e, exited, waitErr⟩ = ⟨some (quitFailMsgHead ++ e), true⟩ := by
  rfl

/-- C6: when the `/quit` request is delivered, `Close` returns the child's
own `cmd.Wait` error on natural exit within the grace period (`none` on a
clean exit, without killing), and on grace-period expiry it kills the child
and returns the shutdown-timeout error. -/
theorem Close_grace_period (waitErr : Option Str) :
    Close ⟨none, true, waitErr⟩ = ⟨waitErr, false⟩ ∧
    Close ⟨none, true, none⟩ = ⟨none, false⟩ ∧
    Close ⟨none, false, waitErr⟩ = ⟨some closeTimeoutMsg, true⟩ := by
  exact ⟨rfl, rfl, rfl⟩

/-- C7 counterexample: for the path `foo` (no leading slash) the composed
URLs have no separator between host and path, contradicting the claim that
the result is `scheme://host[:port]/path` with no missing separator for
every path string. -/
theorem getWebappURL_missing_separator :
    remoteGetWebappURL "staging.wpt.fyi".data "foo".data = "https://staging.wpt.fyifoo".data ∧
    remoteGetWebappURL "staging.wpt.fyi".data "foo".data ≠ "https://staging.wpt.fyi/foo".data ∧
    devGetWebappURL none "localhost".data 8080 "foo".data = "http://localhost:8080foo".data ∧
    devGetWebappURL none "localhost".data 8080 "foo".data ≠ "http://localhost:8080/foo".data := by
  refine ⟨by decide, by decide, ?_, ?_⟩ <;> decide

/-- C7 amended: each variant composes its fixed scheme and authority and then
appends the path verbatim — `https` for the remote variant and `http` with
the constructor host and port for the local variant before discovery — so a
path starting with `/` yields exactly `scheme://host[:port]/rest` with the
single separator the path provides, and a path without a leading `/` is
joined with no separator inserted. -/
theorem getWebappURL_concat (host : Str) (port : Nat) (path : Str) :
    remoteGetWebappURL host path = "https://".data ++ host ++ path ∧
    devGetWebappURL none host port path =
      "http://".data ++ host ++ ":".data ++ natRepr port ++ path ∧
    (∀ rest : Str, remoteGetWebappURL host ('/' :: rest) =
      "https://".data ++ host ++ '/' :: rest) := by
  exact ⟨rfl, rfl, fun rest => rfl⟩

/-- C1 counterexample: a stream that carries only the module line and then
closes — no admin line, no ready-marker line — makes `AwaitReady` return no
error even though the admin-endpoint URL was never captured and the ready
signal was never observed, contradicting the claim that success requires
both captures and the ready signal. -/
theorem AwaitReady_nil_without_admin_or_ready :
    (AwaitReady ⟨none, [hostLineFull], none, false⟩).err = none ∧
    (AwaitReady ⟨none, [hostLineFull], none, false⟩).state.adminURL = none ∧
    [hostLineFull].all (fun l => !containsSub readyMarker l) = true := by
  refine ⟨by decide, by decide, by decide⟩

/-- C2 counterexample: a stream in which the ready-signal line never appears
and that closes cleanly after emitting both endpoint lines makes
`AwaitReady` return nil — a silent success on a ready-less closed stream,
contradicting the claim that it never returns nil there. -/
theorem AwaitReady_nil_on_closed_stream :
    [hostLineFull, adminLineFull].all (fun l => !containsSub readyMarker l) = true ∧
    (AwaitReady ⟨none, [hostLineFull, adminLineFull], none, false⟩).err = none := by
  refine ⟨by decide, by decide⟩

/-- C3 counterexample: on the stream consisting of the literal lines of the
claim — `admin server at: http://localhost:9999`, then
`module running at: http://localhost:8080`, then a ready-marker line, then
closure — `AwaitReady` fails with the discovery error and captures no
primary URL, because those lines lack the `Starting admin server at:` and
`Starting module "default" running at:` markers the patterns require; it
does not succeed with the claimed URLs. -/
theorem AwaitReady_scenario_short_lines_fails :
    (AwaitReady ⟨none, [adminLineShort, hostLineShort, readyLine], none, false⟩).err =
      some discoveryMsg ∧
    (AwaitReady ⟨none, [adminLineShort, hostLineShort, readyLine], none, false⟩).state.baseURL =
      none := by
  refine ⟨by decide, by decide⟩

/-- C3 amended: on the stream of the full diagnostic lines
`Starting admin server at: http://localhost:9999`, then
`Starting module "default" running at: http://localhost:8080`, then a
ready-marker line, then closure, `AwaitReady` succeeds with primary URL
`http://localhost:8080` and admin URL `http://localhost:9999`. -/
theorem AwaitReady_scenario_full_lines_succeeds :
    (AwaitReady ⟨none, [adminLineFull, hostLineFull, readyLine], none, false⟩).err = none ∧
    ((AwaitReady ⟨none, [adminLineFull, hostLineFull, readyLine], none, false⟩).state.baseURL.map
      URL.toString) = some "http://localhost:8080".data ∧
    ((AwaitReady ⟨none, [adminLineFull, hostLineFull, readyLine], none, false⟩).state.adminURL.map
      URL.toString) = some "http://localhost:9999".data := by
  refine ⟨by decide, by decide, by decide⟩

/-- C10: the local variant's `GetWebappURL` is total in both phases: before
discovery it composes `http://host:port` from the constructor-assigned host
and port followed by the path, and after discovery it is exactly the
discovered URL's string form followed by the path, whatever scheme and host
that URL carries. -/
theorem devGetWebappURL_total (host : Str) (port : Nat) (path : Str) (u : URL) :
    devGetWebappURL none host port path =
      "http://".data ++ host ++ ":".data ++ natRepr port ++ path ∧
    devGetWebappURL (some u) host port path = u.toString ++ path := by
  exact ⟨rfl, rfl⟩

end WebappServer
